import Mathlib

/-!
Shallow embedding of the adsb2otel polling-and-forwarding pipeline.

Source files embedded:
  * pkg/models (FlexibleString.UnmarshalJSON, Dump1090fa) — flexible scalar
    decoder and source document decoder;
  * pkg/flightdata/flightdata.go (FetchAndPushLogs) — fetch-transform-emit
    pipeline;
  * the main poll loop (select over ticker / signal / context cancellation).

JSON values are modelled as a tree (the Go code receives already-tokenized
JSON via encoding/json); numbers carry their exact decimal value as
mantissa × 10^exponent plus a flag recording whether the literal was an
optionally-signed digit string (which is what strconv.ParseInt accepts).
float64 parsing is modelled exactly over ℚ: round to nearest binary64,
ties to even, error on overflow (strconv.ParseFloat returns ErrRange and
encoding/json turns that into a decode error).  Negative-zero formatting
(%.0f of a negative value that rounds to 0 prints "-0" in Go) is modelled
explicitly below.
-/

set_option maxRecDepth 20000
set_option exponentiation.threshold 1100

section RatEval

attribute [local semireducible] Rat.mul Rat.inv Rat.add Rat.sub Rat.ofScientific

/-- Floor of log₂ on naturals, structurally recursive on a fuel argument;
`log2fuel n n` equals ⌊log₂ n⌋ for every n ≥ 1 since the recursion halves
its argument at each step. -/
def log2fuel : Nat → Nat → Nat
  | 0, _ => 0
  | fuel+1, n => if n ≤ 1 then 0 else log2fuel fuel (n / 2) + 1

/-- Absolute value on ℚ, written out so that it evaluates by kernel
reduction. -/
def ratAbs (q : ℚ) : ℚ := if q < 0 then -q else q

/-- Powers of a positive natural base with an integer exponent, as a
rational; phrased through `Nat.pow` so that it evaluates by kernel
arithmetic. -/
def qpow (b : ℕ) : ℤ → ℚ
  | .ofNat k => ((b ^ k : ℕ) : ℚ)
  | .negSucc k => (((b ^ (k+1) : ℕ) : ℚ))⁻¹

/-- Floor of log₂ of a nonzero rational: bracket with the numerator's and
denominator's binary magnitudes, then correct by one if needed. -/
def ratLog2 (q : ℚ) : ℤ :=
  let a := q.num.natAbs
  let b := q.den
  let c : ℤ := (log2fuel a a : ℤ) - (log2fuel b b : ℤ)
  if qpow 2 c ≤ ratAbs q then c else c - 1

/-- Round a rational to the nearest integer, ties to even (IEEE 754 default
rounding, also the rounding used by strconv when formatting with fixed
precision). -/
def roundHalfEven (q : ℚ) : ℤ :=
  let f := Rat.floor q
  let r := q - f
  if r < 1/2 then f
  else if 1/2 < r then f + 1
  else if f % 2 = 0 then f else f + 1

/-- Values at or above this threshold round (to nearest, ties to even) to
2^1024, i.e. overflow binary64: the threshold is the midpoint between the
largest finite double (2^53 − 1)·2^971 and 2^1024. -/
def overflowThreshold : ℚ := (((2 ^ 54 - 1) * 2 ^ 970 : ℕ) : ℚ)

/-- strconv.ParseFloat for 64-bit floats, on the exact decimal value:
`none` on overflow (ErrRange), otherwise the nearest binary64 as an exact
rational (ties to even; exponent floored at −1074 for subnormals).
Underflow to zero is not an error in ParseFloat's bit conversion. -/
def float64Round (q : ℚ) : Option ℚ :=
  if q = 0 then some 0
  else if overflowThreshold ≤ ratAbs q then none
  else
    let s := ratAbs q
    let e : ℤ := max (ratLog2 s - 52) (-1074)
    let m : ℤ := roundHalfEven (s / qpow 2 e)
    some ((if q < 0 then -1 else 1) * (m : ℚ) * qpow 2 e)

/-- fmt.Sprintf "%.0f" on a (finite) float value: round the exact value to
the nearest integer, ties to even, and print in base 10; Go prints a minus
sign for a negative value even when it rounds to zero. -/
def fmt0f (v : ℚ) : String :=
  let r := roundHalfEven v
  if v < 0 ∧ r = 0 then "-0" else toString r

/-- int64 range check used by strconv.ParseInt with bitSize 64. -/
def int64Bounds (m : ℤ) : Prop := -(2 ^ 63) ≤ m ∧ m < 2 ^ 63

instance (m : ℤ) : Decidable (int64Bounds m) := by
  unfold int64Bounds; infer_instance

/-- A JSON number token: exact value `mantissa × 10^exponent`; `intSyntax`
records whether the literal was an optionally-signed digit string (the only
form strconv.ParseInt accepts), in which case `exponent = 0` for any token
produced by an actual literal. -/
structure JsonNumber where
  mantissa : ℤ
  exponent : ℤ
  intSyntax : Bool
deriving DecidableEq, Repr

/-- Exact rational value of a number token. -/
def JsonNumber.val (n : JsonNumber) : ℚ := (n.mantissa : ℚ) * qpow 10 n.exponent

/-- A parsed JSON value, as handed to decoders by encoding/json. -/
inductive Json where
  | num (tok : JsonNumber)
  | str (text : String)
  | bool (flag : Bool)
  | null
  | arr (items : List Json)
  | obj (fields : List (String × Json))
deriving Inhabited

/-- Go's `type FlexibleString string`. -/
abbrev FlexibleString := String

/-- pkg/models FlexibleString.UnmarshalJSON: raw `null` bytes map to the
empty string; then try to unmarshal as a JSON string; then as a float64,
rendered with fmt.Sprintf "%.0f"; then as an int64, rendered with "%d";
otherwise report an error.  The int64 attempt succeeds exactly when the
literal is digit-syntax (hence exponent 0) and fits in int64. -/
def FlexibleString.UnmarshalJSON : Json → Except String FlexibleString
  | .null => .ok ""
  | .str s => .ok s
  | .num n =>
    match float64Round n.val with
    | some v => .ok (fmt0f v)
    | none =>
      if n.intSyntax = true ∧ n.exponent = 0 ∧ int64Bounds n.mantissa then
        .ok (toString n.mantissa)
      else .error "cannot unmarshal into FlexibleString"
  | _ => .error "cannot unmarshal into FlexibleString"

def exceptDecEq {ε α : Type} [DecidableEq ε] [DecidableEq α] : DecidableEq (Except ε α)
  | .ok a, .ok b =>
    if h : a = b then isTrue (by rw [h]) else isFalse (by intro hh; cases hh; exact h rfl)
  | .error a, .error b =>
    if h : a = b then isTrue (by rw [h]) else isFalse (by intro hh; cases hh; exact h rfl)
  | .ok _, .error _ => isFalse (by intro h; cases h)
  | .error _, .ok _ => isFalse (by intro h; cases h)

instance {ε α : Type} [DecidableEq ε] [DecidableEq α] : DecidableEq (Except ε α) :=
  exceptDecEq

/-- Field lookup in a decoded JSON object: encoding/json lets a later
duplicate key overwrite an earlier one. -/
def lookupField (ms : List (String × Json)) (k : String) : Option Json :=
  ms.foldl (fun acc kv => if kv.1 = k then some kv.2 else acc) none

/-- encoding/json decoding of a `string` struct field: absent or null leaves
the zero value ""; a JSON string is taken as is; any other token is a type
error that fails the whole document decode. -/
def getStringField (ms : List (String × Json)) (k : String) : Except String String :=
  match lookupField ms k with
  | none => .ok ""
  | some .null => .ok ""
  | some (.str s) => .ok s
  | some _ => .error ("cannot unmarshal into string field " ++ k)

/-- encoding/json decoding of a `float64` struct field: absent or null gives
0; a number parses via strconv.ParseFloat (error on overflow); any other
token is a type error. -/
def getFloatField (ms : List (String × Json)) (k : String) : Except String ℚ :=
  match lookupField ms k with
  | none => .ok 0
  | some .null => .ok 0
  | some (.num n) =>
    match float64Round n.val with
    | some v => .ok v
    | none => .error ("cannot unmarshal number into float64 field " ++ k)
  | some _ => .error ("cannot unmarshal into float64 field " ++ k)

/-- encoding/json decoding of an `int` struct field: absent or null gives 0;
a number parses via strconv.ParseInt base 10 bitSize 64, so the literal must
be an optionally-signed digit string fitting int64; any other token is a
type error. -/
def getIntField (ms : List (String × Json)) (k : String) : Except String ℤ :=
  match lookupField ms k with
  | none => .ok 0
  | some .null => .ok 0
  | some (.num n) =>
    if n.intSyntax = true ∧ n.exponent = 0 ∧ int64Bounds n.mantissa then .ok n.mantissa
    else .error ("cannot unmarshal number into int field " ++ k)
  | some _ => .error ("cannot unmarshal into int field " ++ k)

/-- encoding/json decoding of a FlexibleString struct field: absent leaves
the zero value ""; a present value (null included) is handed to the custom
FlexibleString.UnmarshalJSON. -/
def getFlexField (ms : List (String × Json)) (k : String) : Except String FlexibleString :=
  match lookupField ms k with
  | none => .ok ""
  | some v => FlexibleString.UnmarshalJSON v

/-- One aircraft entry of Dump1090fa, restricted to the fields
FetchAndPushLogs reads (Hex, Type, Flight, AltBaro, Squawk, Lat, Lon); the
remaining telemetry fields decode by the same permissive per-field rules and
are never read by the pipeline, whose body serialization is an oracle
parameter below. -/
structure Aircraft where
  hex : String
  type : String
  flight : String
  altBaro : FlexibleString
  squawk : String
  lat : ℚ
  lon : ℚ
deriving DecidableEq, Repr, Inhabited

/-- encoding/json decoding of one element of the `aircraft` array: null
leaves the zero-valued struct; an object decodes field by field (unknown
keys ignored, absent keys giving zero values); anything else is a type
error. -/
def decodeAircraft : Json → Except String Aircraft
  | .null => .ok ⟨"", "", "", "", "", 0, 0⟩
  | .obj ms => do
    let hex ← getStringField ms "hex"
    let ty ← getStringField ms "type"
    let flight ← getStringField ms "flight"
    let altBaro ← getFlexField ms "alt_baro"
    let squawk ← getStringField ms "squawk"
    let lat ← getFloatField ms "lat"
    let lon ← getFloatField ms "lon"
    .ok ⟨hex, ty, flight, altBaro, squawk, lat, lon⟩
  | _ => .error "cannot unmarshal into aircraft element"

/-- The decoded source document (models.Dump1090fa): Now (float64),
Messages (int) and the aircraft list. -/
structure Dump1090fa where
  now : ℚ
  messages : ℤ
  aircraft : List Aircraft
deriving DecidableEq, Repr, Inhabited

/-- json.Decoder.Decode into a Dump1090fa value: null leaves the zero
value; an object decodes `now`, `messages` and `aircraft` (absent or null
array giving the empty list, each element via `decodeAircraft`); any other
token is a type error.  Unknown fields are ignored. -/
def decodeDump1090fa : Json → Except String Dump1090fa
  | .null => .ok ⟨0, 0, []⟩
  | .obj ms => do
    let now ← getFloatField ms "now"
    let messages ← getIntField ms "messages"
    let aircraft ←
      match lookupField ms "aircraft" with
      | none => .ok []
      | some .null => .ok []
      | some (.arr es) => es.mapM decodeAircraft
      | some _ => .error "cannot unmarshal into aircraft list"
    .ok ⟨now, messages, aircraft⟩
  | _ => .error "cannot unmarshal into Dump1090fa"

/-- Error taxonomy of the pipeline (spec §7): each constructor corresponds
to one failure branch of FetchAndPushLogs, carrying the formatted message. -/
inductive PipelineError where
  | transportError (msg : String)
  | decodeError (msg : String)
  | serializationError (msg : String)
deriving DecidableEq, Repr

/-- An OpenTelemetry log attribute value as used by the pipeline:
otellog.String or otellog.Float64. -/
inductive AttrValue where
  | str (s : String)
  | f64 (x : ℚ)
deriving DecidableEq, Repr

/-- An OpenTelemetry log attribute (otellog.KeyValue). -/
structure KeyValue where
  key : String
  value : AttrValue
deriving DecidableEq, Repr

/-- otellog.SeverityInfo. -/
def severityInfo : ℕ := 9

/-- One emitted log record: timestamp (seconds, from time.Unix of the
truncated document clock), severity, JSON body string and attributes. -/
structure LogRecord where
  timestamp : ℤ
  severity : ℕ
  body : String
  attrs : List KeyValue
deriving DecidableEq, Repr

/-- Attribute construction of FetchAndPushLogs (flightdata.go lines
113-135): the fixed service tag, hex and type always; flight, lat, lon,
alt_baro and squawk appended in that order, each only when non-empty
resp. nonzero. -/
def buildAttrs (a : Aircraft) : List KeyValue :=
  let attrs : List KeyValue :=
    [⟨"service", .str "adsb"⟩, ⟨"aircraft.hex", .str a.hex⟩, ⟨"aircraft.type", .str a.type⟩]
  let attrs := if a.flight ≠ "" then attrs ++ [⟨"aircraft.flight", .str a.flight⟩] else attrs
  let attrs := if a.lat ≠ 0 then attrs ++ [⟨"aircraft.lat", .f64 a.lat⟩] else attrs
  let attrs := if a.lon ≠ 0 then attrs ++ [⟨"aircraft.lon", .f64 a.lon⟩] else attrs
  let attrs := if a.altBaro ≠ "" then attrs ++ [⟨"aircraft.alt_baro", .str a.altBaro⟩] else attrs
  if a.squawk ≠ "" then attrs ++ [⟨"aircraft.squawk", .str a.squawk⟩] else attrs

/-- The record built for one aircraft entry: shared tick timestamp,
SeverityInfo, the JSON-marshalled entry as body, and `buildAttrs`. -/
def mkRecord (ts : ℤ) (a : Aircraft) (body : String) : LogRecord :=
  ⟨ts, severityInfo, body, buildAttrs a⟩

/-- Go's int64(f) conversion of a float64: truncation toward zero, used in
time.Unix(int64(data.Now), 0). -/
def ratTrunc (q : ℚ) : ℤ := Int.tdiv q.num q.den

/-- The emission loop of FetchAndPushLogs (lines 104-150): for each entry
in order, marshal the body (aborting with a SerializationError on failure,
keeping the records already emitted) and emit one record. -/
def emitAircraft (marshal : Aircraft → Except String String) (ts : ℤ) :
    List Aircraft → List LogRecord × Except PipelineError Unit
  | [] => ([], .ok ())
  | a :: rest =>
    match marshal a with
    | .error e =>
      ([], .error (.serializationError ("failed to marshal aircraft data: " ++ e)))
    | .ok bodyStr =>
      let next := emitAircraft marshal ts rest
      (mkRecord ts a bodyStr :: next.1, next.2)

/-- The external-world inputs of one FetchAndPushLogs invocation:
`httpError` is a request-creation or client.Do failure; `statusCode` and
`status` come from the response; `body` is the response body parsed as a
JSON tree (`none` when the bytes are not well-formed JSON); whether
logs.GetLogger found an initialized provider; and the json.Marshal oracle
for aircraft bodies. -/
structure FetchInput where
  httpError : Option String
  statusCode : ℕ
  status : String
  body : Option Json
  loggerInitialized : Bool
  marshal : Aircraft → Except String String

/-- pkg/flightdata FetchAndPushLogs: returns the emitted records (the
observable effect on the log sink, in emission order) together with the
error result.  Control flow follows the source: HTTP error, then non-200
status, then JSON decode, then the nil-logger early success return, then
the per-aircraft marshal-and-emit loop. -/
def FetchAndPushLogs (inp : FetchInput) : List LogRecord × Except PipelineError Unit :=
  match inp.httpError with
  | some e => ([], .error (.transportError e))
  | none =>
    if inp.statusCode ≠ 200 then
      ([], .error (.transportError ("HTTP request failed with status: " ++ inp.status)))
    else
      match inp.body with
      | none => ([], .error (.decodeError "failed to decode dump1090-fa data"))
      | some j =>
        match decodeDump1090fa j with
        | .error e => ([], .error (.decodeError ("failed to decode dump1090-fa data: " ++ e)))
        | .ok data =>
          if inp.loggerInitialized = false then ([], .ok ())
          else emitAircraft inp.marshal (ratTrunc data.now) data.aircraft

/-- One event the main select loop can react to: the ticker firing (with
the pipeline invocation's result), a termination signal, or context
cancellation. -/
inductive LoopEvent where
  | tick (result : Except PipelineError Unit)
  | signal
  | cancelled
deriving DecidableEq

/-- Poll loop state: `running` while the for-select loop is live, `stopped`
once main has returned. -/
inductive LoopState where
  | running
  | stopped
deriving DecidableEq, Repr

/-- One iteration of the main for-select loop: a tick runs the pipeline and
(whatever the result) stays in the loop, a signal or cancellation returns
from main. -/
def loopStep : LoopState → LoopEvent → LoopState
  | .stopped, _ => .stopped
  | .running, .tick _ => .running
  | .running, .signal => .stopped
  | .running, .cancelled => .stopped

/-- The loop consuming a sequence of events from the started state. -/
def loopRun (evs : List LoopEvent) : LoopState :=
  evs.foldl loopStep .running

/-- Whether an event is a shutdown event (signal or cancellation). -/
def LoopEvent.isShutdown : LoopEvent → Bool
  | .tick _ => false
  | .signal => true
  | .cancelled => true

/-- Whether an Except is a success. -/
def isOkE {ε α : Type} : Except ε α → Bool
  | .ok _ => true
  | .error _ => false

/-- The success value of an Except, with a default for the error case. -/
def okD {ε α : Type} (e : Except ε α) (d : α) : α :=
  match e with
  | .ok a => a
  | .error _ => d

/-- Whether an attribute list carries a given key. -/
def hasKey (attrs : List KeyValue) (k : String) : Bool :=
  attrs.any (fun kv => kv.key == k)

/-- The flexible scalar decode in the priority order the spec states
(string first, then integer rendered in base 10, then float rendered
"%.0f"), for comparison with the implementation's actual order. -/
def specOrderFlexibleDecode : Json → Except String String
  | .null => .ok ""
  | .str s => .ok s
  | .num n =>
    if n.intSyntax = true ∧ n.exponent = 0 ∧ int64Bounds n.mantissa then
      .ok (toString n.mantissa)
    else
      match float64Round n.val with
      | some v => .ok (fmt0f v)
      | none => .error "cannot unmarshal into FlexibleString"
  | _ => .error "cannot unmarshal into FlexibleString"

/-- Concrete fixture: the aircraft entry of the spec's §8 scenario body. -/
def wAircraft : Aircraft := ⟨"abc123", "adsb_icao", "", "", "", 0, 0⟩

/-- Concrete fixture: the decoded document of the spec's §8 scenario body. -/
def wDoc : Dump1090fa := ⟨1700000000, 10, [wAircraft]⟩

/-- Concrete fixture: the spec's §8 scenario response body
`{"now":1700000000,"messages":10,"aircraft":[{"hex":"abc123",
"type":"adsb_icao","lat":0,"lon":0}]}` as a JSON tree. -/
def wBody : Json :=
  .obj [("now", .num ⟨1700000000, 0, true⟩),
        ("messages", .num ⟨10, 0, true⟩),
        ("aircraft", .arr [.obj [("hex", .str "abc123"),
                                 ("type", .str "adsb_icao"),
                                 ("lat", .num ⟨0, 0, true⟩),
                                 ("lon", .num ⟨0, 0, true⟩)]])]

/-- Concrete fixture: a second aircraft entry whose body serialization the
oracle below rejects. -/
def wBadAircraft : Aircraft := ⟨"bad999", "adsb_icao", "", "", "", 0, 0⟩

/-- Concrete fixture: a two-entry document. -/
def wDoc2 : Dump1090fa := ⟨1700000000, 10, [wAircraft, wBadAircraft]⟩

/-- Concrete fixture: a response body decoding to `wDoc2`. -/
def wBody2 : Json :=
  .obj [("now", .num ⟨1700000000, 0, true⟩),
        ("messages", .num ⟨10, 0, true⟩),
        ("aircraft", .arr [.obj [("hex", .str "abc123"),
                                 ("type", .str "adsb_icao"),
                                 ("lat", .num ⟨0, 0, true⟩),
                                 ("lon", .num ⟨0, 0, true⟩)],
                           .obj [("hex", .str "bad999"),
                                 ("type", .str "adsb_icao")]])]

/-- Concrete fixture: a marshal oracle failing exactly on `wBadAircraft`. -/
def wMarshal : Aircraft → Except String String :=
  fun a => if a.hex = "bad999" then .error "boom" else .ok "body"

/-!
Theorems.  Shared lemmas first, then one theorem per claim (with witness
or counterexample theorems where required).
-/

/-- A failing float64 parse means the magnitude reached the overflow
threshold. -/
theorem float64Round_none_bound {q : ℚ} (h : float64Round q = none) :
    overflowThreshold ≤ ratAbs q := by
  unfold float64Round at h
  split_ifs at h with h1 h2
  all_goals simp_all

/-- Any int64-range integer is well within float64 range, so its float
parse succeeds. -/
theorem int64Bounds_float64Round_ok {m : ℤ} (hb : int64Bounds m) :
    float64Round ((m : ℚ)) ≠ none := by
  intro h
  have hle := float64Round_none_bound h
  have c1 : ((-(2 ^ 63) : ℤ) : ℚ) ≤ (m : ℚ) := by exact_mod_cast hb.1
  have c2 : ((m : ℚ)) < ((2 ^ 63 : ℤ) : ℚ) := by exact_mod_cast hb.2
  push_cast at c1 c2
  have habs : ratAbs ((m : ℚ)) ≤ (2 : ℚ) ^ 63 := by
    unfold ratAbs
    split_ifs with hneg <;> linarith
  have hth : ((2 : ℚ) ^ 63) < overflowThreshold := by
    norm_num [overflowThreshold]
  linarith

/-- The integer branch of FlexibleString.UnmarshalJSON is dead code: when
the float64 parse of a number token fails, the int64 parse cannot succeed
(the value would have to be both beyond the float64 overflow threshold and
inside int64 range). -/
theorem intParse_dead (n : JsonNumber) (h : float64Round n.val = none) :
    ¬(n.intSyntax = true ∧ n.exponent = 0 ∧ int64Bounds n.mantissa) := by
  rintro ⟨-, he, hb⟩
  have h10 : qpow 10 0 = 1 := rfl
  have hv : n.val = (n.mantissa : ℚ) := by
    unfold JsonNumber.val
    rw [he, h10, mul_one]
  rw [hv] at h
  exact int64Bounds_float64Round_ok hb h

/-- C2 counterexample: the claim does not hold as stated.  The JSON number
token 1e309 (a valid number token, beyond float64 range) makes the decoder
fail, although the claim promises success for every number token; and the
JSON boolean token `true` makes it fail, although the claim says failures
happen exactly for object, array or malformed tokens. -/
theorem flexible_scalar_total_counterexample :
    isOkE (FlexibleString.UnmarshalJSON (.num ⟨1, 309, false⟩)) = false ∧
    isOkE (FlexibleString.UnmarshalJSON (.bool true)) = false := by
  constructor <;> decide

/-- C2 amended: for every JSON token, the flexible scalar decoder succeeds
exactly when the token is null (giving ""), a string, or a number whose
float64 parse does not overflow; it fails for objects, arrays, booleans and
out-of-float64-range numbers (malformed bytes are rejected before the
decoder runs and are outside the token model). -/
theorem flexible_scalar_total_amended (t : Json) :
    isOkE (FlexibleString.UnmarshalJSON t) = true ↔
      (t = Json.null ∨ (∃ s, t = Json.str s) ∨
        (∃ n, t = Json.num n ∧ float64Round n.val ≠ none)) := by
  cases t with
  | num n =>
    cases h : float64Round n.val with
    | some v => simp [FlexibleString.UnmarshalJSON, h, isOkE]
    | none =>
      have dead := intParse_dead n h
      simp only [FlexibleString.UnmarshalJSON, h]
      rw [if_neg dead]
      simp [isOkE, h]
  | null => simp [FlexibleString.UnmarshalJSON, isOkE]
  | bool b => simp [FlexibleString.UnmarshalJSON, isOkE]
  | str s => simp [FlexibleString.UnmarshalJSON, isOkE]
  | arr es => simp [FlexibleString.UnmarshalJSON, isOkE]
  | obj ms => simp [FlexibleString.UnmarshalJSON, isOkE]

/-- C3 counterexample: at the JSON integer token 9007199254740993 (2^53+1,
inside int64 range) the decoder does NOT return the base-10 integer
rendering: the float64 parse runs first and wins, rounding to 2^53, while
the spec's string-integer-float priority order would keep the exact
digits. -/
theorem flexible_order_counterexample :
    FlexibleString.UnmarshalJSON (.num ⟨9007199254740993, 0, true⟩) =
      .ok "9007199254740992" ∧
    specOrderFlexibleDecode (.num ⟨9007199254740993, 0, true⟩) =
      .ok "9007199254740993" ∧
    FlexibleString.UnmarshalJSON (.num ⟨9007199254740993, 0, true⟩) ≠
      specOrderFlexibleDecode (.num ⟨9007199254740993, 0, true⟩) := by
  refine ⟨by decide, by decide, by decide⟩

/-- C3 amended: the decoder attempts string first, then float64 (rendered
"%.0f"), then int64; consequently the result on every number token is
decided entirely by the float64 parse, and the trailing integer branch
never produces a value (when the float64 parse fails the int64 parse fails
too). -/
theorem flexible_order_amended (n : JsonNumber) :
    FlexibleString.UnmarshalJSON (.num n) =
      (match float64Round n.val with
       | some v => Except.ok (fmt0f v)
       | none => Except.error "cannot unmarshal into FlexibleString") := by
  cases h : float64Round n.val with
  | some v => simp [FlexibleString.UnmarshalJSON, h]
  | none =>
    have dead := intParse_dead n h
    simp only [FlexibleString.UnmarshalJSON, h]
    rw [if_neg dead]

/-- C4: the decoder maps the string token "ground" to "ground", the number
25000 to "25000", the number 25000.7 to "25001" (zero-decimal rounding of
the nearest float64), and null to the empty string. -/
theorem flexible_scalar_boundary_values :
    FlexibleString.UnmarshalJSON (.str "ground") = .ok "ground" ∧
    FlexibleString.UnmarshalJSON (.num ⟨25000, 0, true⟩) = .ok "25000" ∧
    FlexibleString.UnmarshalJSON (.num ⟨250007, -1, false⟩) = .ok "25001" ∧
    FlexibleString.UnmarshalJSON .null = .ok "" := by
  refine ⟨by decide, by decide, by decide, by decide⟩

/-- When every entry in the list marshals successfully, the emission loop
emits one record per entry, in order, and succeeds. -/
theorem emitAircraft_all_ok (marshal : Aircraft → Except String String) (ts : ℤ)
    (l : List Aircraft) (h : ∀ a ∈ l, isOkE (marshal a) = true) :
    emitAircraft marshal ts l =
      (l.map (fun a => mkRecord ts a (okD (marshal a) "")), .ok ()) := by
  induction l with
  | nil => rfl
  | cons a rest ih =>
    have ha := h a (List.mem_cons_self a rest)
    have hrest := ih (fun x hx => h x (List.mem_cons_of_mem a hx))
    cases hm : marshal a with
    | error e => rw [hm] at ha; simp [isOkE] at ha
    | ok s => simp [emitAircraft, hm, hrest, okD]

/-- When the first failing marshal sits between a successful prefix and an
arbitrary suffix, the loop emits exactly the prefix records and aborts with
the serialization error. -/
theorem emitAircraft_fails (marshal : Aircraft → Except String String) (ts : ℤ)
    (pre : List Aircraft) (bad : Aircraft) (post : List Aircraft) (e : String)
    (hok : ∀ a ∈ pre, isOkE (marshal a) = true)
    (hbad : marshal bad = .error e) :
    emitAircraft marshal ts (pre ++ bad :: post) =
      (pre.map (fun a => mkRecord ts a (okD (marshal a) "")),
        .error (.serializationError ("failed to marshal aircraft data: " ++ e))) := by
  induction pre with
  | nil => simp [emitAircraft, hbad]
  | cons a rest ih =>
    have ha := hok a (List.mem_cons_self a rest)
    have hrest := ih (fun x hx => hok x (List.mem_cons_of_mem a hx))
    cases hm : marshal a with
    | error e2 => rw [hm] at ha; simp [isOkE] at ha
    | ok s => simp [emitAircraft, hm, hrest, okD]

/-- C1: a pipeline invocation that fetches with status 200, decodes a
document with N aircraft entries, finds the logger initialized and
marshals every entry successfully emits exactly N log events, one per
entry in document order, and returns no error; an empty aircraft list is
the N = 0 instance, emitting nothing and succeeding. -/
theorem pipeline_roundtrip (inp : FetchInput) (j : Json) (data : Dump1090fa)
    (h1 : inp.httpError = none) (h2 : inp.statusCode = 200)
    (h3 : inp.body = some j) (h4 : decodeDump1090fa j = .ok data)
    (h5 : inp.loggerInitialized = true)
    (h6 : ∀ a ∈ data.aircraft, isOkE (inp.marshal a) = true) :
    FetchAndPushLogs inp =
      (data.aircraft.map (fun a => mkRecord (ratTrunc data.now) a (okD (inp.marshal a) "")),
        .ok ()) ∧
    (FetchAndPushLogs inp).1.length = data.aircraft.length := by
  have hemit := emitAircraft_all_ok inp.marshal (ratTrunc data.now) data.aircraft h6
  have hmain : FetchAndPushLogs inp =
      (data.aircraft.map (fun a => mkRecord (ratTrunc data.now) a (okD (inp.marshal a) "")),
        .ok ()) := by
    simp [FetchAndPushLogs, h1, h2, h3, h4, h5, hemit]
  refine ⟨hmain, ?_⟩
  rw [hmain]
  simp

/-- C1 witness: the scenario document with one aircraft entry emits exactly
one record and succeeds. -/
theorem pipeline_roundtrip_witness :
    FetchAndPushLogs ⟨none, 200, "200 OK", some wBody, true, fun _ => .ok "body"⟩ =
      ([mkRecord 1700000000 wAircraft "body"], .ok ()) := by
  have h := (pipeline_roundtrip
    ⟨none, 200, "200 OK", some wBody, true, fun _ => .ok "body"⟩
    wBody wDoc rfl rfl rfl (by decide) rfl (fun a _ => rfl)).1
  exact h.trans (by decide)

/-- C7: when the entry at position k = `pre.length` fails to marshal, the
pipeline returns a SerializationError, emits exactly the records of the k
entries before it (which are not retracted) and transforms nothing after
it. -/
theorem pipeline_serialization_abort (inp : FetchInput) (j : Json) (data : Dump1090fa)
    (pre : List Aircraft) (bad : Aircraft) (post : List Aircraft) (e : String)
    (h1 : inp.httpError = none) (h2 : inp.statusCode = 200)
    (h3 : inp.body = some j) (h4 : decodeDump1090fa j = .ok data)
    (h5 : inp.loggerInitialized = true)
    (hsplit : data.aircraft = pre ++ bad :: post)
    (hok : ∀ a ∈ pre, isOkE (inp.marshal a) = true)
    (hbad : inp.marshal bad = .error e) :
    FetchAndPushLogs inp =
      (pre.map (fun a => mkRecord (ratTrunc data.now) a (okD (inp.marshal a) "")),
        .error (.serializationError ("failed to marshal aircraft data: " ++ e))) := by
  have hemit := emitAircraft_fails inp.marshal (ratTrunc data.now) pre bad post e hok hbad
  simp [FetchAndPushLogs, h1, h2, h3, h4, h5, hsplit, hemit]

/-- C7 witness: in a two-entry document whose second entry fails to
marshal, the first record stays emitted and the run aborts with the
serialization error. -/
theorem pipeline_serialization_abort_witness :
    FetchAndPushLogs ⟨none, 200, "200 OK", some wBody2, true, wMarshal⟩ =
      ([mkRecord 1700000000 wAircraft "body"],
        .error (.serializationError "failed to marshal aircraft data: boom")) := by
  have h := pipeline_serialization_abort
    ⟨none, 200, "200 OK", some wBody2, true, wMarshal⟩
    wBody2 wDoc2 [wAircraft] wBadAircraft [] "boom"
    rfl rfl rfl (by decide) rfl (by decide) (by decide) (by decide)
  exact h.trans (by decide)

/-- C6: any response with a status other than 200 makes the invocation
fail with a TransportError before decoding or emission, so zero events are
emitted for that tick. -/
theorem pipeline_non200_transport (inp : FetchInput)
    (h1 : inp.httpError = none) (h2 : inp.statusCode ≠ 200) :
    FetchAndPushLogs inp =
      ([], .error (.transportError ("HTTP request failed with status: " ++ inp.status))) := by
  simp [FetchAndPushLogs, h1, h2]

/-- C6 witness: status 503 yields the transport error and no emission. -/
theorem pipeline_non200_transport_witness :
    FetchAndPushLogs ⟨none, 503, "503 Service Unavailable", some wBody, true,
        fun _ => .ok "body"⟩ =
      ([], .error (.transportError
        "HTTP request failed with status: 503 Service Unavailable")) := by
  have h := pipeline_non200_transport
    ⟨none, 503, "503 Service Unavailable", some wBody, true, fun _ => .ok "body"⟩
    rfl (by decide)
  exact h.trans (by decide)

/-- C10: with the fetch and decode successful but the global logger
provider uninitialized, the invocation returns success and emits nothing,
whatever the aircraft list. -/
theorem pipeline_logger_nil (inp : FetchInput) (j : Json) (data : Dump1090fa)
    (h1 : inp.httpError = none) (h2 : inp.statusCode = 200)
    (h3 : inp.body = some j) (h4 : decodeDump1090fa j = .ok data)
    (h5 : inp.loggerInitialized = false) :
    FetchAndPushLogs inp = ([], .ok ()) := by
  simp [FetchAndPushLogs, h1, h2, h3, h4, h5]

/-- C10 witness: the one-aircraft scenario document with no logger emits
nothing and succeeds. -/
theorem pipeline_logger_nil_witness :
    FetchAndPushLogs ⟨none, 200, "200 OK", some wBody, false, fun _ => .ok "body"⟩ =
      ([], .ok ()) :=
  pipeline_logger_nil
    ⟨none, 200, "200 OK", some wBody, false, fun _ => .ok "body"⟩
    wBody wDoc rfl rfl rfl (by decide) rfl

/-- C5: for every aircraft entry, the produced attribute set contains the
fixed service tag and the entry's hex and type values unconditionally, and
carries the flight, lat, lon, alt_baro and squawk keys exactly when the
respective field is non-empty resp. nonzero; in particular lat = 0 and
lon = 0 leave the lat and lon keys out. -/
theorem transformer_attributes (a : Aircraft) :
    (⟨"service", .str "adsb"⟩ : KeyValue) ∈ buildAttrs a ∧
    (⟨"aircraft.hex", .str a.hex⟩ : KeyValue) ∈ buildAttrs a ∧
    (⟨"aircraft.type", .str a.type⟩ : KeyValue) ∈ buildAttrs a ∧
    (hasKey (buildAttrs a) "aircraft.flight" = true ↔ a.flight ≠ "") ∧
    (hasKey (buildAttrs a) "aircraft.lat" = true ↔ a.lat ≠ 0) ∧
    (hasKey (buildAttrs a) "aircraft.lon" = true ↔ a.lon ≠ 0) ∧
    (hasKey (buildAttrs a) "aircraft.alt_baro" = true ↔ a.altBaro ≠ "") ∧
    (hasKey (buildAttrs a) "aircraft.squawk" = true ↔ a.squawk ≠ "") := by
  unfold buildAttrs hasKey
  split_ifs <;> simp_all

/-- C8: document decoding is deterministic: the same parsed input yields
structurally-equal results, success or failure alike (the decoder is a
pure function of its input). -/
theorem decode_deterministic (j : Json) :
    decodeDump1090fa j = decodeDump1090fa j ∧
    isOkE (decodeDump1090fa j) = isOkE (decodeDump1090fa j) :=
  ⟨rfl, rfl⟩

/-- From the stopped state the loop stays stopped whatever else arrives. -/
theorem loopRun_stopped (evs : List LoopEvent) :
    evs.foldl loopStep .stopped = .stopped := by
  induction evs with
  | nil => rfl
  | cons e evs ih => simpa [loopStep] using ih

/-- C9: a tick whose pipeline invocation failed leaves the loop running
(the error is only logged), and a whole event sequence stops the loop
exactly when it contains a termination signal or a context cancellation. -/
theorem loop_survives_failures :
    (∀ r : Except PipelineError Unit, loopStep .running (.tick r) = .running) ∧
    (∀ evs : List LoopEvent, loopRun evs = .stopped ↔ ∃ e ∈ evs, e.isShutdown = true) := by
  refine ⟨fun r => rfl, ?_⟩
  intro evs
  induction evs with
  | nil => simp [loopRun]
  | cons e evs ih =>
    cases e with
    | tick r => simpa [loopRun, loopStep, LoopEvent.isShutdown] using ih
    | signal => simp [loopRun, loopStep, LoopEvent.isShutdown, loopRun_stopped]
    | cancelled => simp [loopRun, loopStep, LoopEvent.isShutdown, loopRun_stopped]

end RatEval
